import Mathlib

/-!
Shallow embedding of `library/ibmim_installer.py` (ansible-websphere).

The module shells out to external commands and inspects the filesystem, so
the embedding threads an explicit environment `Env` holding the filesystem
existence predicate and, for each shell command line, the stdout, stderr and
return code the command would produce.  Every function that in Python calls
`subprocess.Popen` also returns the list of command lines it launched, so
that "no external process is invoked" claims are statements about that list.

Python dictionaries with optionally-present keys become structures with
`Option` fields; `module.exit_json` / `module.fail_json` / an uncaught
Python exception become the three constructors of `Outcome`.
-/

namespace IbmimInstaller

/-- Environment of one module invocation: filesystem and shell oracle.
`runStdout c`, `runStderr c`, `runRc c` are the captured stdout, stderr and
return code of running the shell command line `c`; `node` is
`platform.node()` and `now` the `datetime.datetime.now().strftime` stamp
(the source formats two consecutive `now()` calls; modelled as one instant). -/
structure Env where
  pathExists : String → Bool
  runStdout : String → String
  runStderr : String → String
  runRc : String → Int
  node : String
  now : String

/-- The parameters of the Ansible module (`generate_module_args`) plus the
check-mode flag of the `AnsibleModule` object.  `preserve` and `reponsefile`
are declared without defaults in the source, so an unset value is Python
`None`: modelled as `Option Bool`. -/
structure ModuleState where
  checkMode : Bool
  accessRights : String
  dataLocation : String
  dest : String
  logdir : String
  preserve : Option Bool
  reponsefile : Option Bool
  sharedResourcesDirectory : String
  src : String
  state : String
deriving DecidableEq

/-- The dict built inside `get_version`: four optionally-present keys. -/
structure VersionFacts where
  im_version : Option String := none
  im_internal_version : Option String := none
  im_arch : Option String := none
  im_header : Option String := none
deriving DecidableEq

/-- The `module_facts` seed dict built in `run_module` (all keys present). -/
structure ModuleFacts where
  changed : Bool
  im_version : String
  im_internal_version : String
  im_arch : String
  im_header : String
deriving DecidableEq

/-- Keyword arguments observed in `exit_json` / `fail_json` calls. -/
structure ExitResult where
  changed : Bool := false
  msg : String
  stdout : Option String := none
  stderr : Option String := none
  module_facts : Option ModuleFacts := none
deriving DecidableEq

/-- How one call to `install` / `uninstall` terminates: a normal
`module.exit_json`, a `module.fail_json`, or an uncaught Python exception. -/
inductive Outcome where
  | exitJson (r : ExitResult)
  | failJson (r : ExitResult)
  | pyError (e : String)
deriving DecidableEq

/-- The module facts carried by an outcome, when any. -/
def Outcome.factsOf : Outcome → Option ModuleFacts
  | .exitJson r => r.module_facts
  | .failJson r => r.module_facts
  | .pyError _ => none

/-- Characters of the line starting here: everything up to the next newline
(regex `.` does not match a newline). -/
def takeLine : List Char → List Char
  | [] => []
  | c :: rest => if c = '\n' then [] else c :: takeLine rest

/-- Python `needle in hay` on strings, as lists of characters. -/
def listHasInfix (needle : List Char) : List Char → Bool
  | [] => needle.isEmpty
  | c :: rest => needle.isPrefixOf (c :: rest) || listHasInfix needle rest

/-- `re.search(key ++ "([0-9].*)", s).group(1)`: leftmost position where the
literal `key` is followed by a digit; the capture is that digit and the rest
of its line.  Used for the `Version: ` and `Internal Version: ` patterns. -/
def searchKeyNum (key : List Char) : List Char → Option (List Char)
  | [] => none
  | c :: rest =>
    if key.isPrefixOf (c :: rest) then
      match (c :: rest).drop key.length with
      | d :: tl => if d.isDigit then some (d :: takeLine tl) else searchKeyNum key rest
      | [] => searchKeyNum key rest
    else searchKeyNum key rest

/-- The longest take of `line` of length at least `minLen` that ends in
`sfx`, if any: the greedy backtracking of `.*` before a literal tail. -/
def longestTakeEndingIn (sfx : List Char) (minLen : Nat) (line : List Char) :
    Option (List Char) :=
  (List.range (line.length + 1)).foldl
    (fun acc k =>
      if minLen ≤ k && sfx.isSuffixOf (line.take k) then some (line.take k) else acc)
    none

/-- `re.search("Architecture: ([0-9].*-bit)", s).group(1)`: leftmost position
where the literal is followed by a digit and the rest of that line contains a
later `-bit`; greedily captures the digit up to the last such `-bit`. -/
def searchArch : List Char → Option (List Char)
  | [] => none
  | c :: rest =>
    if ("Architecture: ".toList).isPrefixOf (c :: rest) then
      match (c :: rest).drop ("Architecture: ".toList).length with
      | d :: tl =>
        if d.isDigit then
          match longestTakeEndingIn ("-bit".toList) 5 (d :: takeLine tl) with
          | some cap => some cap
          | none => searchArch rest
        else searchArch rest
      | [] => searchArch rest
    else searchArch rest

/-- `re.search("Installation Manager.*", s).group(0)`: the leftmost
occurrence of the literal together with the rest of its line. -/
def searchHeader : List Char → Option (List Char)
  | [] => none
  | c :: rest =>
    if ("Installation Manager".toList).isPrefixOf (c :: rest) then
      some (takeLine (c :: rest))
    else searchHeader rest

/-- `re.search("Version: ([0-9].*)", s)` and `.group(1)`, on strings. -/
def findVersion (s : String) : Option String :=
  (searchKeyNum ("Version: ".toList) s.toList).map List.asString

/-- `re.search("Internal Version: ([0-9].*)", s)` and `.group(1)`. -/
def findInternalVersion (s : String) : Option String :=
  (searchKeyNum ("Internal Version: ".toList) s.toList).map List.asString

/-- `re.search("Architecture: ([0-9].*-bit)", s)` and `.group(1)`. -/
def findArch (s : String) : Option String :=
  (searchArch s.toList).map List.asString

/-- `re.search("Installation Manager.*", s)` and `.group(0)`. -/
def findHeader (s : String) : Option String :=
  (searchHeader s.toList).map List.asString

/-- The pure parsing part of `get_version`, applied to the captured stdout.
The source assigns the four keys inside one `try` block and catches
`AttributeError` (a failed `re.search` returns `None`, and `.group` on it
raises): the first pattern that fails to match aborts the block, keeping the
keys already assigned and leaving that key and all later keys absent. -/
def get_version_parse (stdout_value : String) : VersionFacts :=
  match findVersion stdout_value with
  | none => {}
  | some v =>
    match findInternalVersion stdout_value with
    | none => { im_version := some v }
    | some iv =>
      match findArch stdout_value with
      | none => { im_version := some v, im_internal_version := some iv }
      | some a =>
        match findHeader stdout_value with
        | none =>
          { im_version := some v, im_internal_version := some iv,
            im_arch := some a }
        | some h =>
          { im_version := some v, im_internal_version := some iv,
            im_arch := some a, im_header := some h }

/-- The command line `"{0}/eclipse/tools/imcl version".format(dest)`. -/
def versionQueryCmd (dest : String) : String :=
  dest ++ "/eclipse/tools/imcl version"

/-- `get_version(dest)`: runs the version query through the shell and parses
its stdout; the return code and stderr are captured but never inspected.
Second component: the commands launched. -/
def get_version (env : Env) (dest : String) : VersionFacts × List String :=
  (get_version_parse (env.runStdout (versionQueryCmd dest)), [versionQueryCmd dest])

/-- `is_installed(dest)`.  When `dest` does not exist the source returns
`False` at once.  Otherwise it evaluates
`"installed" in get_version(dest)["im_header"]`: a plain dict subscript, so
an absent `im_header` key raises `KeyError` (modelled as `Except.error`). -/
def is_installed (env : Env) (dest : String) : Except String Bool × List String :=
  if env.pathExists dest = false then
    (Except.ok false, [])
  else
    let gv := get_version env dest
    match gv.1.im_header with
    | none => (Except.error "KeyError: im_header", gv.2)
    | some h => (Except.ok (listHasInfix ("installed".toList) h.toList), gv.2)

/-- Python `str` of an optional boolean parameter, as used by `format`. -/
def pyStrOptBool : Option Bool → String
  | none => "None"
  | some true => "True"
  | some false => "False"

/-- The generated log file name `install-iim-<node>-<stamp>-log.xml`. -/
def installLogfile (env : Env) : String :=
  "install-iim-" ++ env.node ++ "-" ++ env.now ++ "-log.xml"

/-- The generated response file name `install-iim-<node>-<stamp>-response.xml`. -/
def installResponsefile (env : Env) : String :=
  "install-iim-" ++ env.node ++ "-" ++ env.now ++ "-response.xml"

/-- The `imcl_command` string built in `install`, with the format
placeholders substituted exactly as in the source (the `reponsefile`
parameter is passed to `format` but its placeholder `{5}` never occurs). -/
def imclInstallCommand (env : Env) (m : ModuleState) : String :=
  m.src ++ "/tools/imcl install com.ibm.cic.agent " ++
  "-acceptLicense " ++
  "-accessRights " ++ m.accessRights ++ " " ++
  "-eclipseLocation " ++ m.dest ++ " " ++
  "-installationDirectory " ++ m.dest ++ " " ++
  "-dataLocation " ++ m.dataLocation ++ " " ++
  "-log " ++ m.logdir ++ "/" ++ installLogfile env ++ " " ++
  "-nl en " ++
  "-record " ++ m.logdir ++ "/" ++ installResponsefile env ++ " " ++
  "-repositories " ++ m.src ++ " " ++
  "-sharedResourcesDirectory " ++ m.sharedResourcesDirectory ++ " " ++
  "-preferences com.ibm.cic.common.core.preferences.keepFetchedFiles=" ++
    pyStrOptBool m.preserve ++
  ",com.ibm.cic.common.core.preferences.preserveDownloadedArtifacts=" ++
    pyStrOptBool m.preserve ++
  ",offering.service.repositories.areUsed=false" ++
  ",com.ibm.cic.common.core.preferences.searchForUpdates=false "

/-- `install(module, module_facts)`.  Mirrors the source line by line:
check mode exits first; then `is_installed` (whose `KeyError` propagates);
a missing `src` is `fail_json(msg=src)` with no other keys; a missing
`logdir` makes `os.listdir(logdir)` raise `OSError`; on a non-zero return
code `fail_json` carries stderr, stdout and the passed-in facts; on success
the source binds `result = get_version(dest)` (one more process) but passes
the original `module_facts` to `exit_json`. -/
def install (env : Env) (m : ModuleState) (module_facts : ModuleFacts) :
    Outcome × List String :=
  if m.checkMode then
    (.exitJson { changed := false,
                 msg := "IBM Installation Manager where to be installed at " ++
                   m.dest }, [])
  else
    match is_installed env m.dest with
    | (Except.error e, procs) => (.pyError e, procs)
    | (Except.ok true, procs) =>
      (.exitJson { changed := false,
                   msg := "IBM Installation Manager is already installed",
                   module_facts := some module_facts }, procs)
    | (Except.ok false, procs) =>
      if env.pathExists m.src = false then
        (.failJson { msg := m.src }, procs)
      else if env.pathExists m.logdir = false then
        (.pyError "OSError: os.listdir on missing logdir", procs)
      else
        let cmd := imclInstallCommand env m
        let stdout_value := env.runStdout cmd
        let stderr_value := env.runStderr cmd
        if env.runRc cmd ≠ 0 then
          (.failJson { msg := "IBM Installation Manager installation failed",
                       stderr := some stderr_value, stdout := some stdout_value,
                       module_facts := some module_facts }, procs ++ [cmd])
        else
          let result := get_version env m.dest
          (.exitJson { msg := "IBM Installation Manager installed successfully",
                       changed := true, stdout := some stdout_value,
                       stderr := some stderr_value,
                       module_facts := some module_facts },
           procs ++ [cmd] ++ result.2)

/-- `uninstall(module, module_facts)`.  In check mode the source evaluates
`module.params('dest')` — calling the params dict — which raises `TypeError`
before `exit_json` runs.  Otherwise it probes with `is_installed`, checks
the uninstaller path only afterwards, and on success exits with stdout but
no stderr key. -/
def uninstall (env : Env) (m : ModuleState) (module_facts : ModuleFacts) :
    Outcome × List String :=
  if m.checkMode then
    (.pyError "TypeError: dict object is not callable", [])
  else
    let imcl_command := m.dest ++ "/eclipse/tools/imcl"
    match is_installed env m.dest with
    | (Except.error e, procs) => (.pyError e, procs)
    | (Except.ok false, procs) =>
      (.exitJson { changed := false,
                   msg := "IBM Installation Manager is not installed",
                   module_facts := some module_facts }, procs)
    | (Except.ok true, procs) =>
      if env.pathExists imcl_command = false then
        (.failJson { msg := imcl_command ++ " does not exist" }, procs)
      else
        let cmd := imcl_command ++ " uninstall com.ibm.cic.agent"
        let stdout_value := env.runStdout cmd
        let stderr_value := env.runStderr cmd
        if env.runRc cmd ≠ 0 then
          (.failJson { msg := "IBM Installation Manager uninstall failed",
                       stderr := some stderr_value, stdout := some stdout_value,
                       module_facts := some module_facts }, procs ++ [cmd])
        else
          (.exitJson { changed := true,
                       msg := "IBM Installation Manager uninstalled successfully",
                       stdout := some stdout_value,
                       module_facts := some module_facts }, procs ++ [cmd])

/-- The `module_facts` seed dict built at the top of `run_module`. -/
def seedModuleFacts : ModuleFacts :=
  { changed := false, im_version := "", im_internal_version := "",
    im_arch := "", im_header := "" }

/-- `run_module()`: builds the seed facts (and a second, never-used `result`
seed), then dispatches on `state`.  `AnsibleModule` argument validation
rejects a `state` outside the declared choices before either branch runs. -/
def run_module (env : Env) (m : ModuleState) : Outcome × List String :=
  if m.state = "present" then install env m seedModuleFacts
  else if m.state = "absent" then uninstall env m seedModuleFacts
  else (.failJson { msg := "value of state must be one of: present, absent" }, [])

/-! Concrete fixtures: destinations, version-query outputs and environments
used to evaluate the functions at specific inputs. -/

/-- The default installation directory of the module. -/
def destPath : String := "/opt/IBM/InstallationManager"

/-- Version-query output of the round-trip scenario in the spec. -/
def roundTripOut : String :=
  "Version: 1.8.0\nInternal Version: 1.8.0.20140902_1503\nArchitecture: 64-bit\nInstallation Manager (installed)"

/-- A fully parseable output whose header lacks the substring installed. -/
def headerOtherOut : String :=
  "Version: 1.8.0\nInternal Version: 1.8.0.20140902_1503\nArchitecture: 64-bit\nInstallation Manager unknown"

/-- Output where only the architecture and header patterns can match. -/
def archOnlyOut : String := "Architecture: 64-bit\nInstallation Manager (installed)"

/-- Module parameters at their documented defaults, state present, live run. -/
def baseParams : ModuleState :=
  { checkMode := false, accessRights := "admin",
    dataLocation := "/opt/IBM/IMDataLocation", dest := destPath,
    logdir := "/tmp", preserve := none, reponsefile := none,
    sharedResourcesDirectory := "/opt/IBM/IMShared", src := "/srv/repo",
    state := "present" }

/-- Same parameters with state absent. -/
def mAbsent : ModuleState := { baseParams with state := "absent" }

/-- Check-mode variant, state present. -/
def mCheckPresent : ModuleState := { baseParams with checkMode := true }

/-- Check-mode variant, state absent. -/
def mCheckAbsent : ModuleState :=
  { baseParams with checkMode := true, state := "absent" }

/-- Nothing exists on the filesystem; every command prints nothing. -/
def envNoDest : Env :=
  { pathExists := fun _ => false, runStdout := fun _ => "",
    runStderr := fun _ => "", runRc := fun _ => 0,
    node := "host1", now := "20170101-000000" }

/-- Only the destination directory exists; its imcl executable is absent, so
the shell prints a not-found diagnostic on stderr and nothing on stdout. -/
def envUnparseable : Env :=
  { pathExists := fun p => p == destPath, runStdout := fun _ => "",
    runStderr := fun _ =>
      "/bin/sh: 1: /opt/IBM/InstallationManager/eclipse/tools/imcl: not found",
    runRc := fun _ => 127, node := "host1", now := "20170101-000000" }

/-- Everything exists and the version query reports an installed product. -/
def envInstalled : Env :=
  { pathExists := fun _ => true, runStdout := fun _ => roundTripOut,
    runStderr := fun _ => "", runRc := fun _ => 0,
    node := "host1", now := "20170101-000000" }

/-- Destination exists but the header reports something other than
installed; the src path does not exist. -/
def envProbeNoSrc : Env :=
  { pathExists := fun p => p == destPath,
    runStdout := fun _ => headerOtherOut,
    runStderr := fun _ => "", runRc := fun _ => 0,
    node := "host1", now := "20170101-000000" }

/-- Clean destination, src and logdir exist, every command succeeds; the
version query prints the round-trip output, other commands print a marker. -/
def envRoundTrip : Env :=
  { pathExists := fun p => p == "/srv/repo" || p == "/tmp",
    runStdout := fun c => if c = versionQueryCmd destPath then roundTripOut
                          else "install ok",
    runStderr := fun _ => "", runRc := fun _ => 0,
    node := "host1", now := "20170101-000000" }

/-- Clean destination, src and logdir exist, but every command fails. -/
def envInstallFail : Env :=
  { pathExists := fun p => p == "/srv/repo" || p == "/tmp",
    runStdout := fun _ => "OUT", runStderr := fun _ => "ERR",
    runRc := fun _ => 1, node := "host1", now := "20170101-000000" }

/-- Installed product, but the uninstall command exits non-zero. -/
def envUninstallFail : Env :=
  { pathExists := fun _ => true, runStdout := fun _ => roundTripOut,
    runStderr := fun _ => "UERR", runRc := fun _ => 1,
    node := "host1", now := "20170101-000000" }

/-! Helper lemmas shared by several claim theorems. -/

/-- The commands launched by one probe: exactly the version query when the
destination exists, none otherwise. -/
theorem is_installed_procs (env : Env) (d : String) :
    (is_installed env d).2 =
      (if env.pathExists d then [versionQueryCmd d] else []) := by
  unfold is_installed get_version
  cases h : env.pathExists d <;>
    cases hh : (get_version_parse (env.runStdout (versionQueryCmd d))).im_header <;>
      simp [h, hh]

/-- C1: on an existing destination, is_installed decides by the installed
substring of the extracted header when one is extracted, but on output where
the header cannot be extracted (empty stdout) it raises KeyError instead of
returning NotInstalled: the dict subscript on the absent im_header key
aborts the probe, contradicting the never-crash part of the claim. -/
theorem c1_is_installed_raises_on_unparseable_output :
    is_installed envUnparseable destPath =
      (Except.error "KeyError: im_header", [versionQueryCmd destPath]) ∧
    is_installed envInstalled destPath =
      (Except.ok true, [versionQueryCmd destPath]) ∧
    is_installed envProbeNoSrc destPath =
      (Except.ok false, [versionQueryCmd destPath]) :=
  ⟨rfl, rfl, rfl⟩

/-- C2: on the round-trip scenario (clean destination, install command exits
zero, version query prints the four-line output) install reports
changed=true and re-runs the version query, but the exit result carries the
seed module facts with empty im fields, not the freshly parsed VersionFacts:
the re-queried facts are bound to an unused local and discarded. -/
theorem c2_install_discards_fresh_facts :
    install envRoundTrip baseParams seedModuleFacts =
      (Outcome.exitJson { changed := true,
                          msg := "IBM Installation Manager installed successfully",
                          stdout := some "install ok", stderr := some "",
                          module_facts := some seedModuleFacts },
       [imclInstallCommand envRoundTrip baseParams, versionQueryCmd destPath]) ∧
    get_version_parse roundTripOut =
      { im_version := some "1.8.0",
        im_internal_version := some "1.8.0.20140902_1503",
        im_arch := some "64-bit",
        im_header := some "Installation Manager (installed)" } ∧
    seedModuleFacts.im_version = "" ∧ seedModuleFacts.im_header = "" :=
  ⟨rfl, rfl, rfl, rfl⟩

/-- C3: in check mode, install exits at once with changed=false, a
descriptive message and no process launched; but the uninstall check-mode
branch evaluates module.params called as a function, a TypeError, so the
uninstall path crashes instead of reporting changed=false. -/
theorem c3_check_mode_install_exits_uninstall_raises :
    install envNoDest mCheckPresent seedModuleFacts =
      (Outcome.exitJson
        { changed := false,
          msg := "IBM Installation Manager where to be installed at " ++
            destPath }, []) ∧
    uninstall envNoDest mCheckAbsent seedModuleFacts =
      (Outcome.pyError "TypeError: dict object is not callable", []) :=
  ⟨rfl, rfl⟩

/-- C5 counterexample: on output whose architecture pattern matches but
whose version pattern does not, get_version leaves im_arch (and im_header)
unset, refuting the claim that each field is set whenever its own pattern
matched. -/
theorem c5_counterexample :
    findArch archOnlyOut = some "64-bit" ∧
    findHeader archOnlyOut = some "Installation Manager (installed)" ∧
    (get_version_parse archOnlyOut).im_arch = none ∧
    (get_version_parse archOnlyOut).im_header = none :=
  ⟨rfl, rfl, rfl, rfl⟩

/-- C6: when the destination exists but its imcl executable is absent, the
probe runs the missing path through the shell (empty stdout), the header
cannot be parsed and uninstall crashes with KeyError, instead of ending in a
structured failure naming the missing uninstaller path with zero
invocations of it. -/
theorem c6_uninstall_missing_uninstaller_crashes :
    Env.pathExists envUnparseable (destPath ++ "/eclipse/tools/imcl") =
      false ∧
    uninstall envUnparseable mAbsent seedModuleFacts =
      (Outcome.pyError "KeyError: im_header", [versionQueryCmd destPath]) :=
  ⟨rfl, rfl⟩

/-- C7 counterexample: with an existing destination whose header parses but
lacks the installed substring, install on a missing src path does fail with
a message naming the src path, yet one external process (the version probe)
was already invoked, refuting the zero-invocations part of the claim. -/
theorem c7_counterexample :
    Env.pathExists envProbeNoSrc baseParams.src = false ∧
    install envProbeNoSrc baseParams seedModuleFacts =
      (Outcome.failJson { msg := "/srv/repo" }, [versionQueryCmd destPath]) ∧
    [versionQueryCmd destPath] ≠ ([] : List String) :=
  ⟨rfl, rfl, by decide⟩

/-- C9: when the destination path does not exist, is_installed returns
false immediately and launches no external process. -/
theorem c9_missing_dest_not_installed (env : Env) (d : String)
    (h : env.pathExists d = false) :
    is_installed env d = (Except.ok false, []) := by
  simp [is_installed, h]

/-- C9 witness: the theorem applied to a concrete empty filesystem. -/
theorem c9_missing_dest_not_installed_witness :
    Env.pathExists envNoDest destPath = false ∧
    is_installed envNoDest destPath = (Except.ok false, []) :=
  ⟨rfl, c9_missing_dest_not_installed envNoDest destPath rfl⟩

/-- C10 counterexample: the check-mode exit of install places no
module_facts mapping in the result at all, so the claim that every exit
path carries exactly the seed mapping fails on that path. -/
theorem c10_counterexample :
    (install envNoDest mCheckPresent seedModuleFacts).1 =
      Outcome.exitJson
        { changed := false,
          msg := "IBM Installation Manager where to be installed at " ++
            destPath } ∧
    Outcome.factsOf (install envNoDest mCheckPresent seedModuleFacts).1 ≠
      some seedModuleFacts :=
  ⟨rfl, by decide⟩

/-- C4: when the probe already reports installed, install exits with
changed=false, passes the facts through, and launches no command beyond the
commands of the probe itself; symmetrically, when the probe reports
not-installed, uninstall exits with changed=false and launches nothing
further. -/
theorem c4_idempotence (env : Env) (m : ModuleState) (mf : ModuleFacts)
    (procs : List String) (hcheck : m.checkMode = false) :
    (is_installed env m.dest = (Except.ok true, procs) →
      install env m mf =
        (Outcome.exitJson
          { changed := false,
            msg := "IBM Installation Manager is already installed",
            module_facts := some mf }, procs)) ∧
    (is_installed env m.dest = (Except.ok false, procs) →
      uninstall env m mf =
        (Outcome.exitJson
          { changed := false,
            msg := "IBM Installation Manager is not installed",
            module_facts := some mf }, procs)) := by
  constructor
  · intro h
    simp [install, hcheck, h]
  · intro h
    simp [uninstall, hcheck, h]

/-- C4 witness: applied to an installed product for install and to an empty
filesystem for uninstall. -/
theorem c4_idempotence_witness :
    install envInstalled baseParams seedModuleFacts =
      (Outcome.exitJson
        { changed := false,
          msg := "IBM Installation Manager is already installed",
          module_facts := some seedModuleFacts },
       [versionQueryCmd destPath]) ∧
    uninstall envNoDest mAbsent seedModuleFacts =
      (Outcome.exitJson
        { changed := false,
          msg := "IBM Installation Manager is not installed",
          module_facts := some seedModuleFacts }, []) :=
  ⟨(c4_idempotence envInstalled baseParams seedModuleFacts
      [versionQueryCmd destPath] rfl).1 rfl,
   (c4_idempotence envNoDest mAbsent seedModuleFacts [] rfl).2 rfl⟩

/-- C5 (amended): get_version never raises; the four patterns are tried in
the fixed order version, internal version, architecture, header, and the
first failing pattern ends extraction, so a field is set exactly when its
own and all earlier patterns matched, and then holds the match of its own
pattern. -/
theorem c5_sequential_extraction (out : String) :
    (get_version_parse out).im_version = findVersion out ∧
    (get_version_parse out).im_internal_version =
      (if (findVersion out).isSome then findInternalVersion out else none) ∧
    (get_version_parse out).im_arch =
      (if (findVersion out).isSome && (findInternalVersion out).isSome then
        findArch out
       else none) ∧
    (get_version_parse out).im_header =
      (if (findVersion out).isSome && (findInternalVersion out).isSome &&
          (findArch out).isSome then
        findHeader out
       else none) := by
  cases hv : findVersion out <;>
    cases hi : findInternalVersion out <;>
      cases ha : findArch out <;>
        cases hh : findHeader out <;>
          simp [get_version_parse, hv, hi, ha, hh]

/-- C7 (amended): with a not-installed destination and a missing src path,
install ends in a structured failure whose message is the missing src path
and never launches the install command; the only external process is the
single version probe, run exactly when the destination exists. -/
theorem c7_missing_src_fails_naming_path (env : Env) (m : ModuleState)
    (mf : ModuleFacts) (procs : List String) (hcheck : m.checkMode = false)
    (hinst : is_installed env m.dest = (Except.ok false, procs))
    (hsrc : env.pathExists m.src = false) :
    install env m mf = (Outcome.failJson { msg := m.src }, procs) ∧
    procs = (if env.pathExists m.dest then [versionQueryCmd m.dest] else []) := by
  constructor
  · simp [install, hcheck, hinst, hsrc]
  · have hp := is_installed_procs env m.dest
    rw [hinst] at hp
    exact hp

/-- C7 witness: the amended theorem at the concrete probe environment. -/
theorem c7_missing_src_fails_naming_path_witness :
    install envProbeNoSrc baseParams seedModuleFacts =
      (Outcome.failJson { msg := "/srv/repo" }, [versionQueryCmd destPath]) ∧
    [versionQueryCmd destPath] =
      (if Env.pathExists envProbeNoSrc baseParams.dest then
        [versionQueryCmd baseParams.dest]
       else []) :=
  c7_missing_src_fails_naming_path envProbeNoSrc baseParams seedModuleFacts
    [versionQueryCmd destPath] rfl rfl rfl

/-- C8: whenever the install or the uninstall command exits non-zero, the
operation ends in a fail result that carries the captured stdout and stderr
of that command verbatim, the facts known before the attempt, and a
non-empty message. -/
theorem c8_failures_carry_diagnostics (env : Env) (m : ModuleState)
    (mf : ModuleFacts) (procs : List String) (hcheck : m.checkMode = false) :
    (is_installed env m.dest = (Except.ok false, procs) →
     env.pathExists m.src = true →
     env.pathExists m.logdir = true →
     env.runRc (imclInstallCommand env m) ≠ 0 →
     install env m mf =
       (Outcome.failJson
         { msg := "IBM Installation Manager installation failed",
           stdout := some (env.runStdout (imclInstallCommand env m)),
           stderr := some (env.runStderr (imclInstallCommand env m)),
           module_facts := some mf },
        procs ++ [imclInstallCommand env m])) ∧
    (is_installed env m.dest = (Except.ok true, procs) →
     env.pathExists (m.dest ++ "/eclipse/tools/imcl") = true →
     env.runRc ((m.dest ++ "/eclipse/tools/imcl") ++
       " uninstall com.ibm.cic.agent") ≠ 0 →
     uninstall env m mf =
       (Outcome.failJson
         { msg := "IBM Installation Manager uninstall failed",
           stdout := some (env.runStdout ((m.dest ++ "/eclipse/tools/imcl") ++
             " uninstall com.ibm.cic.agent")),
           stderr := some (env.runStderr ((m.dest ++ "/eclipse/tools/imcl") ++
             " uninstall com.ibm.cic.agent")),
           module_facts := some mf },
        procs ++ [(m.dest ++ "/eclipse/tools/imcl") ++
          " uninstall com.ibm.cic.agent"])) := by
  constructor
  · intro hinst hsrc hlog hrc
    simp [install, hcheck, hinst, hsrc, hlog, hrc]
  · intro hinst himcl hrc
    simp [uninstall, hcheck, hinst, himcl, hrc]

/-- C8 witness: a failing install on a clean filesystem and a failing
uninstall on an installed product. -/
theorem c8_failures_carry_diagnostics_witness :
    install envInstallFail baseParams seedModuleFacts =
      (Outcome.failJson
        { msg := "IBM Installation Manager installation failed",
          stdout := some "OUT", stderr := some "ERR",
          module_facts := some seedModuleFacts },
       [imclInstallCommand envInstallFail baseParams]) ∧
    uninstall envUninstallFail mAbsent seedModuleFacts =
      (Outcome.failJson
        { msg := "IBM Installation Manager uninstall failed",
          stdout := some roundTripOut, stderr := some "UERR",
          module_facts := some seedModuleFacts },
       [versionQueryCmd destPath,
        (destPath ++ "/eclipse/tools/imcl") ++
          " uninstall com.ibm.cic.agent"]) :=
  ⟨(c8_failures_carry_diagnostics envInstallFail baseParams seedModuleFacts
      [] rfl).1 rfl rfl rfl (by decide),
   (c8_failures_carry_diagnostics envUninstallFail mAbsent seedModuleFacts
      [versionQueryCmd destPath] rfl).2 rfl rfl (by decide)⟩

/-- C10 (amended): whichever exit path of install or uninstall places a
module_facts mapping in its result, that mapping is exactly the facts seed
passed in, unchanged; neither the parsed probe facts nor the post-install
re-query are ever merged into it. -/
theorem c10_facts_passthrough (env : Env) (m : ModuleState)
    (mf f : ModuleFacts) :
    (Outcome.factsOf (install env m mf).1 = some f → f = mf) ∧
    (Outcome.factsOf (uninstall env m mf).1 = some f → f = mf) := by
  constructor
  · intro h
    simp only [install] at h
    repeat' split at h
    all_goals simp_all [Outcome.factsOf]
  · intro h
    simp only [uninstall] at h
    repeat' split at h
    all_goals simp_all [Outcome.factsOf]

/-- C10 witness: on a no-op install the placed facts are the seed. -/
theorem c10_facts_passthrough_witness :
    Outcome.factsOf (install envInstalled baseParams seedModuleFacts).1 =
      some seedModuleFacts ∧
    seedModuleFacts = seedModuleFacts :=
  ⟨rfl,
   (c10_facts_passthrough envInstalled baseParams seedModuleFacts
      seedModuleFacts).1 rfl⟩

end IbmimInstaller
